import Mathlib

/-!
Shallow embedding of the usage-agent repository.

Agent side (client/agent.py): the payload builder that thresholds raw
CPU/GPU/disk readings before transmission, and the startup log-retention
cleanup. Collector side (server/server.py): the /log_activity ingestion
route over a relational store, and the dashboard alert derivation.

Readings and thresholds are modelled over the rationals; instants are
modelled as integers (seconds). Database tables are lists of rows, and
one request is a pure function from payload and store to the new store
and an HTTP status.
-/

namespace UsageAgentWindows

/-- Round half to even on rationals, modelling the Python builtin round
applied to a real-valued reading. -/
def roundHalfEven (q : ℚ) : ℤ :=
  if q - ⌊q⌋ < 1/2 then ⌊q⌋
  else if 1/2 < q - ⌊q⌋ then ⌊q⌋ + 1
  else if ⌊q⌋ % 2 = 0 then ⌊q⌋ else ⌊q⌋ + 1

/-- Python round(x, ndigits) on a rational reading. -/
def pyRound (ndigits : ℕ) (q : ℚ) : ℚ :=
  (roundHalfEven (q * 10 ^ ndigits) : ℚ) / 10 ^ ndigits

/-! ## Agent payload builder (client/agent.py, main, lines 387-443) -/

/-- client/agent.py lines 390-392: the raw free-disk reading, rounded to two
decimal places when present (current_free_space_gb_rounded). -/
def currentFreeSpaceGbRounded (free_space_gb_val : Option ℚ) : Option ℚ :=
  free_space_gb_val.map (pyRound 2)

/-- client/agent.py lines 394-399: the disk field of the outbound machine
payload. The rounded value is compared against the configured threshold and
transmitted only when strictly below it. -/
def payloadFreeDiskSpaceGb (free_space_gb_val : Option ℚ)
    (disk_space_alert_threshold_gb : ℤ) : Option ℚ :=
  match currentFreeSpaceGbRounded free_space_gb_val with
  | none => none
  | some r =>
    if r < (disk_space_alert_threshold_gb : ℚ) then some r else none

/-- client/agent.py lines 416-419: the CPU field of the outbound machine
payload. The raw value is compared against the configured threshold and
transmitted, rounded to one decimal place, only when strictly above it. -/
def finalCpuUsage (cpu_val : Option ℚ) (cpu_alert_threshold : ℤ) : Option ℚ :=
  match cpu_val with
  | none => none
  | some v =>
    if v > (cpu_alert_threshold : ℚ) then some (pyRound 1 v) else none

/-- client/agent.py lines 421-424: the GPU field of the outbound machine
payload, thresholded exactly like the CPU field. -/
def finalGpuUsage (gpu_val : Option ℚ) (gpu_alert_threshold : ℤ) : Option ℚ :=
  match gpu_val with
  | none => none
  | some v =>
    if v > (gpu_alert_threshold : ℚ) then some (pyRound 1 v) else none

/-- The outbound machine payload (client/agent.py lines 426-436). -/
structure MachinePayload where
  log_type : String
  timestamp : String
  netbios_name : String
  ip_address : String
  free_disk_space_gb : Option ℚ
  cpu_usage_percent : Option ℚ
  gpu_usage_percent : Option ℚ
  os_name : String
  os_version : String
  deriving Repr, DecidableEq

/-- client/agent.py lines 387-436: assembling the outbound machine payload
from the raw provider readings and the configured thresholds. -/
def buildMachinePayload (current_time_iso netbios_name ip_address os_name os_version : String)
    (free_space_gb_val cpu_val gpu_val : Option ℚ)
    (cpu_alert_threshold gpu_alert_threshold disk_space_alert_threshold_gb : ℤ) :
    MachinePayload :=
  { log_type := "machine"
    timestamp := current_time_iso
    netbios_name := netbios_name
    ip_address := ip_address
    free_disk_space_gb := payloadFreeDiskSpaceGb free_space_gb_val disk_space_alert_threshold_gb
    cpu_usage_percent := finalCpuUsage cpu_val cpu_alert_threshold
    gpu_usage_percent := finalGpuUsage gpu_val gpu_alert_threshold
    os_name := os_name
    os_version := os_version }

/-! ## String helpers

Python string primitives used by the code, modelled on the character list
of a Lean string (Python length, slicing, endswith and strip all operate
on the character sequence). -/

/-- Python str.strip with no argument: remove leading and trailing
whitespace characters. -/
def pyStrip (s : String) : String :=
  ⟨((s.data.dropWhile Char.isWhitespace).reverse.dropWhile Char.isWhitespace).reverse⟩

/-- Python s[:n]. -/
def takeChars (n : ℕ) (s : String) : String :=
  ⟨s.data.take n⟩

/-- Python len(s). -/
def lenChars (s : String) : ℕ :=
  s.data.length

/-- Python s.endswith(suffix). -/
def pyEndsWith (s suffix : String) : Bool :=
  suffix.data.isSuffixOf s.data

/-! ## Calendar arithmetic (Python datetime.date)

client/agent.py parses the six leading characters of a log file name with
datetime.strptime(date_str, "%y%m%d") and compares (today - file_date).days
against the retention setting. The proleptic Gregorian day ordinal below is
the one used by the Python date type. -/

def isLeapYear (y : ℕ) : Bool :=
  y % 4 == 0 && (y % 100 != 0 || y % 400 == 0)

def daysInMonth (y m : ℕ) : ℕ :=
  if m == 2 then (if isLeapYear y then 29 else 28)
  else if m == 4 || m == 6 || m == 9 || m == 11 then 30
  else 31

/-- A calendar date as carried by a Python datetime.date value. -/
structure Date where
  year : ℕ
  month : ℕ
  day : ℕ
  deriving Repr, DecidableEq

/-- Days in the months of year y strictly before month m. -/
def daysBeforeMonth (y m : ℕ) : ℕ :=
  ((List.range (m - 1)).map (fun i => daysInMonth y (i + 1))).sum

/-- Python date.toordinal: day number of a proleptic Gregorian date, with
0001-01-01 as day one. -/
def toOrdinal (dt : Date) : ℤ :=
  365 * ((dt.year : ℤ) - 1) + ((dt.year - 1) / 4 : ℕ) - ((dt.year - 1) / 100 : ℕ)
    + ((dt.year - 1) / 400 : ℕ) + (daysBeforeMonth dt.year dt.month : ℕ) + (dt.day : ℕ)

/-- The value of an ASCII digit character. -/
def digitVal (c : Char) : ℕ :=
  c.toNat - 48

/-- Python strptime %y: two-digit years 00-68 are 2000-2068, 69-99 are
1969-1999. -/
def twoDigitYear (yy : ℕ) : ℕ :=
  if yy ≤ 68 then 2000 + yy else 1900 + yy

/-- datetime.strptime(date_str, "%y%m%d").date() on a six-character string:
six ASCII digits forming a valid calendar date, otherwise a ValueError,
modelled as none. -/
def parseYYMMDD (s : String) : Option Date :=
  match s.data with
  | [c1, c2, c3, c4, c5, c6] =>
    if [c1, c2, c3, c4, c5, c6].all Char.isDigit then
      let y := twoDigitYear (10 * digitVal c1 + digitVal c2)
      let m := 10 * digitVal c3 + digitVal c4
      let d := 10 * digitVal c5 + digitVal c6
      if 1 ≤ m && m ≤ 12 && 1 ≤ d && d ≤ daysInMonth y m then some ⟨y, m, d⟩
      else none
    else none
  | _ => none

/-! ## Log cleanup (client/agent.py, cleanup_old_logs, lines 114-154) -/

/-- client/agent.py line 130: the daily-log name pattern check,
filename.endswith("Log_Usage_Windows.log") and
len(filename) == 6 + len("Log_Usage_Windows.log"). -/
def matchesLogName (filename : String) : Bool :=
  pyEndsWith filename "Log_Usage_Windows.log"
    && lenChars filename == 6 + lenChars "Log_Usage_Windows.log"

/-- client/agent.py lines 130-146: whether one directory entry is deleted by
the cleanup pass dated today with the given retention setting. -/
def deletedByCleanup (today : Date) (retention_days : ℤ) (filename : String) : Bool :=
  matchesLogName filename
    && (match parseYYMMDD (takeChars 6 filename) with
        | some d => if toOrdinal today - toOrdinal d > retention_days then true else false
        | none => false)

/-- client/agent.py lines 114-154, cleanup_old_logs: the files removed from
the log folder, given the folder listing. A negative retention setting
returns before touching the folder. The listing, the isdir check and
per-file OS deletion errors are file-system effects outside the model;
the result is the list of entries the function removes. -/
def cleanup_old_logs (today : Date) (retention_days : ℤ) (files : List String) :
    List String :=
  if retention_days < 0 then []
  else files.filter (deletedByCleanup today retention_days)

/-! ## Collector data model (server/sql_ddl.py)

Instants (DATETIME values) are modelled as integers counting seconds.
Rows carry the columns the ingestion route reads or writes; AUTO_INCREMENT
ids are drawn from a next_id counter, so lastrowid is the id of the row
just inserted. -/

/-- One row of the computers table (server/sql_ddl.py,
CREATE_COMPUTERS_TABLE). -/
structure Computer where
  id : ℕ
  netbios_name : String
  ip_address : String
  last_seen : Option ℤ
  os_name : Option String
  os_version : Option String
  group_id : Option ℕ
  deriving Repr, DecidableEq

/-- One row of the activity_logs table (server/sql_ddl.py,
CREATE_ACTIVITY_LOGS_TABLE). -/
structure ActivityLog where
  computer_id : ℕ
  timestamp : ℤ
  free_disk_space_gb : Option ℚ
  cpu_usage_percent : Option ℚ
  gpu_usage_percent : Option ℚ
  deriving Repr, DecidableEq

/-- One row of the application_usage_logs table (server/sql_ddl.py,
CREATE_APPLICATION_USAGE_LOGS_TABLE). -/
structure ApplicationUsageLog where
  computer_id : ℕ
  timestamp : ℤ
  active_window_title : String
  deriving Repr, DecidableEq

/-- The relational store behind the collector. -/
structure DB where
  computers : List Computer
  activity_logs : List ActivityLog
  application_usage_logs : List ApplicationUsageLog
  next_id : ℕ
  deriving Repr, DecidableEq

/-- The empty store, with AUTO_INCREMENT starting at one. -/
def DB.empty : DB :=
  { computers := [], activity_logs := [], application_usage_logs := [], next_id := 1 }

/-! ## DML statements

SELECT_COMPUTER_BY_NETBIOS appears identically in every snapshot of
sql_dml.py. The remaining statements executed by server/server.py live in
server/sql_dml.py, which is absent from the source tree (the top-level
sql_dml.py is a superseded snapshot whose placeholder counts no longer
match the caller), so they are modelled from the spec and from the
argument lists server/server.py passes to them. -/

/-- sql_dml.py line 7: SELECT id FROM computers WHERE netbios_name equals
the given name; fetchone returns the first matching row. -/
def SELECT_COMPUTER_BY_NETBIOS (db : DB) (name : String) : Option ℕ :=
  (db.computers.find? (fun c => c.netbios_name == name)).map (fun c => c.id)

/-- Modelled from the spec: server/sql_dml.py is missing from the source
tree. Spec 4.5, machine branch: if found, update ip_address, last_seen,
os_name, os_version in place. server/server.py line 252 passes
(ip_address, parsed_timestamp, os_name, os_version, computer_id). -/
def UPDATE_COMPUTER_LAST_SEEN_IP (db : DB) (ip : String) (ts : ℤ)
    (os_name os_version : Option String) (id : ℕ) : DB :=
  { db with
    computers := db.computers.map (fun c =>
      if c.id = id then
        { c with ip_address := ip, last_seen := some ts,
                 os_name := os_name, os_version := os_version }
      else c) }

/-- Modelled from the spec: server/sql_dml.py is missing from the source
tree. Spec 4.5: if not found, create a new Endpoint with those fields.
server/server.py lines 254 and 313 pass (netbios_name, ip_address,
parsed_timestamp, os_name, os_version); the new AUTO_INCREMENT id is
returned as lastrowid. -/
def INSERT_NEW_COMPUTER (db : DB) (name ip : String) (ts : ℤ)
    (os_name os_version : Option String) : DB × ℕ :=
  ({ db with
     computers := db.computers
       ++ [{ id := db.next_id, netbios_name := name, ip_address := ip,
             last_seen := some ts, os_name := os_name,
             os_version := os_version, group_id := none }],
     next_id := db.next_id + 1 },
   db.next_id)

/-- Modelled from the spec: server/sql_dml.py is missing from the source
tree. Spec 4.5: insert a MachineSample row referencing the endpoint.
server/server.py lines 264-271 pass (computer_id, parsed_timestamp,
free_disk_space_gb, cpu_usage_percent, gpu_usage_percent). -/
def INSERT_ACTIVITY_LOG (db : DB) (cid : ℕ) (ts : ℤ)
    (disk cpu gpu : Option ℚ) : DB :=
  { db with
    activity_logs := db.activity_logs
      ++ [{ computer_id := cid, timestamp := ts, free_disk_space_gb := disk,
            cpu_usage_percent := cpu, gpu_usage_percent := gpu }] }

/-- Modelled from the spec: server/sql_dml.py is missing from the source
tree. Spec 4.5, application branch: if found, insert an ApplicationSample
row. server/server.py lines 294-298 pass (computer_id, parsed_timestamp,
active_window_title). -/
def INSERT_APPLICATION_LOG (db : DB) (cid : ℕ) (ts : ℤ) (title : String) : DB :=
  { db with
    application_usage_logs := db.application_usage_logs
      ++ [{ computer_id := cid, timestamp := ts, active_window_title := title }] }

/-- Modelled from the spec: server/sql_dml.py is missing from the source
tree. Spec 4.5, ping branch: update ip_address and last_seen either way.
server/server.py line 321 passes (ip_address, parsed_timestamp,
computer_id). -/
def UPDATE_COMPUTER_PING_INFO (db : DB) (ip : String) (ts : ℤ) (id : ℕ) : DB :=
  { db with
    computers := db.computers.map (fun c =>
      if c.id = id then { c with ip_address := ip, last_seen := some ts }
      else c) }

/-! ## Ingestion route (server/server.py, log_activity, lines 200-331) -/

/-- The timestamp field of the inbound JSON body together with the outcome
of datetime.fromisoformat(raw.replace("Z", "+00:00")), which
server/server.py lines 214-223 apply to it inside a try block.
fromisoformat is Python standard library, treated as an external
collaborator: parsed = none models a ValueError, parsed = some t a
successful parse to the instant t. -/
structure TimestampField where
  raw : String
  parsed : Option ℤ
  deriving Repr, DecidableEq

/-- The JSON body of one POST to /log_activity, with fields as the agent
sends them (string fields as strings, numeric fields as rational or null).
A field absent from the JSON object is none. -/
structure Payload where
  log_type : Option String
  timestamp : Option TimestampField
  netbios_name : Option String
  ip_address : Option String
  os_name : Option String
  os_version : Option String
  free_disk_space_gb : Option ℚ
  cpu_usage_percent : Option ℚ
  gpu_usage_percent : Option ℚ
  active_window_title : Option String
  deriving Repr, DecidableEq

/-- The HTTP status classes the route answers with. -/
inductive Resp
  | ok
  | badRequest
  | notFound
  | serverError
  deriving Repr, DecidableEq

/-- server/server.py lines 242-272, the machine branch: validate
ip_address, upsert the computer row, then insert the activity_logs row.
Every error return rolls the transaction back, so the original store is
returned next to the error status; the single commit at line 330 makes the
final store visible only on success. -/
def machineBranch (p : Payload) (db : DB) (t : ℤ) (name : String)
    (result : Option ℕ) : DB × Resp :=
  match p.ip_address with
  | none => (db, .badRequest)
  | some ipRaw =>
    if pyStrip ipRaw = "" then (db, .badRequest)
    else
      let ip := pyStrip ipRaw
      match result with
      | some cid =>
        let db1 := UPDATE_COMPUTER_LAST_SEEN_IP db ip t p.os_name p.os_version cid
        if cid = 0 then (db, .serverError)
        else
          (INSERT_ACTIVITY_LOG db1 cid t p.free_disk_space_gb
            p.cpu_usage_percent p.gpu_usage_percent, .ok)
      | none =>
        let ins := INSERT_NEW_COMPUTER db name ip t p.os_name p.os_version
        if ins.2 = 0 then (db, .serverError)
        else
          (INSERT_ACTIVITY_LOG ins.1 ins.2 t p.free_disk_space_gb
            p.cpu_usage_percent p.gpu_usage_percent, .ok)

/-- server/server.py lines 274-299, the application branch: the computer
must already exist, else 404 with nothing persisted; if it exists, insert
the application_usage_logs row. -/
def applicationBranch (p : Payload) (db : DB) (t : ℤ)
    (result : Option ℕ) : DB × Resp :=
  match result with
  | none => (db, .notFound)
  | some cid =>
    if cid = 0 then (db, .serverError)
    else (INSERT_APPLICATION_LOG db cid t (p.active_window_title.getD ""), .ok)

/-- server/server.py lines 301-324, the ping branch: validate ip_address;
create the computer if unknown (os fields null), else update its
ip_address and last_seen. In the source file this elif is dedented one
level by an indentation slip; it is embedded as the member of the
if/elif chain on log_type that the surrounding code and the orphaned
else branch evidently intend. -/
def pingBranch (p : Payload) (db : DB) (t : ℤ) (name : String)
    (result : Option ℕ) : DB × Resp :=
  match p.ip_address with
  | none => (db, .badRequest)
  | some ipRaw =>
    if pyStrip ipRaw = "" then (db, .badRequest)
    else
      let ip := pyStrip ipRaw
      match result with
      | none =>
        let ins := INSERT_NEW_COMPUTER db name ip t none none
        if ins.2 = 0 then (db, .serverError) else (ins.1, .ok)
      | some cid => (UPDATE_COMPUTER_PING_INFO db ip t cid, .ok)

/-- server/server.py lines 200-331, log_activity: validate log_type,
timestamp and netbios_name, look the computer up by the stripped name, and
dispatch on log_type. The JSON-body-present check and the
database-connection check sit upstream of the model; database faults are
external. The returned store reflects the single commit on success and
the rollback on every error path. -/
def log_activity (p : Payload) (db : DB) : DB × Resp :=
  match p.log_type with
  | none => (db, .badRequest)
  | some lt =>
    if lt = "" then (db, .badRequest)
    else
      match p.timestamp with
      | none => (db, .badRequest)
      | some tf =>
        if tf.raw = "" then (db, .badRequest)
        else
          match tf.parsed with
          | none => (db, .badRequest)
          | some t =>
            match p.netbios_name with
            | none => (db, .badRequest)
            | some nRaw =>
              if pyStrip nRaw = "" then (db, .badRequest)
              else
                let name := pyStrip nRaw
                let result := SELECT_COMPUTER_BY_NETBIOS db name
                if lt = "machine" then machineBranch p db t name result
                else if lt = "application" then applicationBranch p db t result
                else if lt = "ping" then pingBranch p db t name result
                else (db, .badRequest)

/-! ## Dashboard alert derivation (server/server.py, dashboard_page,
lines 123-191) -/

/-- server/server.py lines 56-59: the collector-side alert constants. -/
def CPU_ALERT_THRESHOLD : ℚ := 90

/-- server/server.py line 58. -/
def GPU_ALERT_THRESHOLD : ℚ := 90

/-- server/server.py line 59. -/
def OFFLINE_THRESHOLD_MINUTES : ℤ := 30

/-- One row of the dashboard read: a computers row as fetched by
SELECT_COMPUTERS_FOR_DASHBOARD (a left join against groups, one row per
computer since group ids are unique), together with the most recent
activity_logs row for it as fetched by SELECT_LATEST_ACTIVITY_FOR_COMPUTER
(cpu_usage_percent, gpu_usage_percent, timestamp), or none when the
computer has no activity log. -/
structure DashboardRow where
  id : ℕ
  netbios_name : String
  ip_address : String
  last_seen : Option ℤ
  group_name : String
  group_id : Option ℕ
  latest_log : Option (Option ℚ × Option ℚ × ℤ)
  deriving Repr, DecidableEq

/-- One derived alert. The human-readable details string of the source is
elided; the alert kind and the endpoint identity are kept. -/
structure Alert where
  netbios_name : String
  ip_address : String
  alert_type : String
  deriving Repr, DecidableEq

/-- server/server.py lines 139-176: the alerts one dashboard row
contributes, in source order. Offline when last_seen is null (rendered
Never) or now minus last_seen strictly exceeds the offline threshold;
High CPU and High GPU when the latest sample carries a non-null value
strictly above the collector constant. -/
def rowAlerts (now : ℤ) (row : DashboardRow) : List Alert :=
  (match row.last_seen with
   | some t =>
     if now - t > OFFLINE_THRESHOLD_MINUTES * 60 then
       [{ netbios_name := row.netbios_name, ip_address := row.ip_address,
          alert_type := "Offline" }]
     else []
   | none =>
     [{ netbios_name := row.netbios_name, ip_address := row.ip_address,
        alert_type := "Offline" }])
  ++ (match row.latest_log with
      | some (cpu, gpu, _) =>
        (match cpu with
         | some c =>
           if c > CPU_ALERT_THRESHOLD then
             [{ netbios_name := row.netbios_name, ip_address := row.ip_address,
                alert_type := "High CPU Usage" }]
           else []
         | none => [])
        ++ (match gpu with
            | some g =>
              if g > GPU_ALERT_THRESHOLD then
                [{ netbios_name := row.netbios_name, ip_address := row.ip_address,
                   alert_type := "High GPU Usage" }]
              else []
            | none => [])
      | none => [])

/-- server/server.py lines 139-176: the alert list accumulated over the
fetched rows on one dashboard render. -/
def dashboardAlerts (now : ℤ) (rows : List DashboardRow) : List Alert :=
  rows.flatMap (rowAlerts now)

/-- How many Offline alerts the list holds for the named endpoint. -/
def countOfflineAlertsFor (alerts : List Alert) (name : String) : ℕ :=
  (alerts.filter (fun a => a.alert_type == "Offline" && a.netbios_name == name)).length

/-! ## Derived notions and concrete requests used in the claims -/

/-- Number of computers rows carrying the given netbios_name. -/
def countName (db : DB) (name : String) : ℕ :=
  (db.computers.filter (fun c => c.netbios_name == name)).length

/-- The last_seen column of the first computers row with the given name. -/
def lastSeenOf (db : DB) (name : String) : Option (Option ℤ) :=
  (db.computers.find? (fun c => c.netbios_name == name)).map (fun c => c.last_seen)

/-- A well-formed timestamp as the agent sends it. -/
def tsW1 : TimestampField := ⟨"2023-10-28T14:30:00", some 100⟩

/-- A well-formed timestamp fifty seconds before tsW1. -/
def tsW2 : TimestampField := ⟨"2023-10-28T14:29:10", some 50⟩

/-- A string datetime.fromisoformat raises ValueError on. -/
def tsBad : TimestampField := ⟨"not-a-timestamp", none⟩

/-- A machine record for PC1 at instant 100. -/
def machineReq1 : Payload :=
  ⟨some "machine", some tsW1, some "PC1", some "10.0.0.5", some "Windows",
   some "10", none, some 50, none, none⟩

/-- A machine record for PC1 (name padded with blanks) at the earlier
instant 50. -/
def machineReq2 : Payload :=
  ⟨some "machine", some tsW2, some " PC1 ", some "10.0.0.6", some "Windows",
   some "11", none, none, none, none⟩

/-- An application record for the known endpoint PC1. -/
def appReq : Payload :=
  ⟨some "application", some tsW2, some "PC1", none, none, none, none, none,
   none, some "Editor"⟩

/-- An application record for an endpoint nobody ever reported. -/
def appReqUnknown : Payload :=
  ⟨some "application", some tsW1, some "PC9", none, none, none, none, none,
   none, some "Editor"⟩

/-- A ping record for a fresh endpoint PC3. -/
def pingReqNew : Payload :=
  ⟨some "ping", some tsW1, some "PC3", some "10.0.0.7", none, none, none,
   none, none, none⟩

/-- A ping record for the known endpoint PC1. -/
def pingReqKnown : Payload :=
  ⟨some "ping", some tsW2, some "PC1", some "10.0.0.8", none, none, none,
   none, none, none⟩

/-- A machine record whose timestamp string does not parse. -/
def badTsReq : Payload :=
  ⟨some "machine", some tsBad, some "PC1", some "10.0.0.5", none, none,
   none, none, none, none⟩

/-- A dashboard row last seen 31 minutes (1860 seconds) before instant
10000. -/
def dashRow1 : DashboardRow :=
  ⟨1, "PC1", "10.0.0.5", some 8140, "N/A", none, none⟩

/-- A dashboard row last seen 29 minutes (1740 seconds) before instant
10000. -/
def dashRow2 : DashboardRow :=
  ⟨2, "PC2", "10.0.0.6", some 8260, "N/A", none, none⟩

/-! ## Claims about the agent payload builder -/

/-- C1: for every raw CPU reading v and configured cpu threshold T, and
likewise for every GPU reading and gpu threshold: if v is at most T the
outbound machine payload carries null in cpu_usage_percent (resp.
gpu_usage_percent), if v is strictly above T it carries v rounded to one
decimal place, and an absent reading also yields null. -/
theorem C1_cpu_gpu_thresholding (ts nb ip osn osv : String)
    (freeDiskVal cpuVal gpuVal : Option ℚ) (v : ℚ) (cpuT gpuT diskT : ℤ) :
    ((v ≤ (cpuT : ℚ) →
      (buildMachinePayload ts nb ip osn osv freeDiskVal (some v) gpuVal
        cpuT gpuT diskT).cpu_usage_percent = none)
    ∧ ((cpuT : ℚ) < v →
      (buildMachinePayload ts nb ip osn osv freeDiskVal (some v) gpuVal
        cpuT gpuT diskT).cpu_usage_percent = some (pyRound 1 v))
    ∧ (buildMachinePayload ts nb ip osn osv freeDiskVal none gpuVal
        cpuT gpuT diskT).cpu_usage_percent = none)
  ∧ ((v ≤ (gpuT : ℚ) →
      (buildMachinePayload ts nb ip osn osv freeDiskVal cpuVal (some v)
        cpuT gpuT diskT).gpu_usage_percent = none)
    ∧ ((gpuT : ℚ) < v →
      (buildMachinePayload ts nb ip osn osv freeDiskVal cpuVal (some v)
        cpuT gpuT diskT).gpu_usage_percent = some (pyRound 1 v))
    ∧ (buildMachinePayload ts nb ip osn osv freeDiskVal cpuVal none
        cpuT gpuT diskT).gpu_usage_percent = none) := by
  refine ⟨⟨fun h => ?_, fun h => ?_, rfl⟩, ⟨fun h => ?_, fun h => ?_, rfl⟩⟩
  · have hnot : ¬ (v > (cpuT : ℚ)) := not_lt.mpr h
    simp [buildMachinePayload, finalCpuUsage, hnot]
  · simp [buildMachinePayload, finalCpuUsage, h]
  · have hnot : ¬ (v > (gpuT : ℚ)) := not_lt.mpr h
    simp [buildMachinePayload, finalGpuUsage, hnot]
  · simp [buildMachinePayload, finalGpuUsage, h]

/-- C1 witness: the spec scenario, cpu reading 95.5 against threshold 90 is
transmitted as 95.5, while a gpu reading of 50 against threshold 90 is
withheld as null. -/
theorem C1_witness :
    (buildMachinePayload "2023-10-28T14:30:00" "PC1" "10.0.0.5" "Windows" "10"
      none (some (191/2)) (some 50) 90 90 20).cpu_usage_percent = some (191/2)
  ∧ (buildMachinePayload "2023-10-28T14:30:00" "PC1" "10.0.0.5" "Windows" "10"
      none (some (191/2)) (some 50) 90 90 20).gpu_usage_percent = none := by
  constructor
  · exact ((C1_cpu_gpu_thresholding "2023-10-28T14:30:00" "PC1" "10.0.0.5"
        "Windows" "10" none (some 50) (some 50) (191/2) 90 90 20).1.2.1
        (by norm_num)).trans
      (by unfold pyRound roundHalfEven; norm_num)
  · exact (C1_cpu_gpu_thresholding "2023-10-28T14:30:00" "PC1" "10.0.0.5"
      "Windows" "10" none (some (191/2)) (some (191/2)) 50 90 90 20).2.1
      (by norm_num)

/-- Equation for the disk field on a present reading: the rounded value is
compared against the threshold. -/
theorem payloadFreeDiskSpaceGb_some (v : ℚ) (T : ℤ) :
    payloadFreeDiskSpaceGb (some v) T =
      if pyRound 2 v < (T : ℚ) then some (pyRound 2 v) else none := rfl

/-- C2 counterexample: at raw disk reading 19.999 and threshold 20 the raw
reading is strictly below the threshold and rounds to 20.00, yet the
outbound free_disk_space_gb is null rather than the rounded value the
claim predicts: the code compares the rounded reading, not the raw one. -/
theorem C2_counterexample :
    (19999/1000 : ℚ) < ((20 : ℤ) : ℚ)
  ∧ pyRound 2 (19999/1000) = 20
  ∧ (buildMachinePayload "2023-10-28T14:30:00" "PC1" "10.0.0.5" "Windows" "10"
      (some (19999/1000)) none none 90 90 20).free_disk_space_gb = none
  ∧ (buildMachinePayload "2023-10-28T14:30:00" "PC1" "10.0.0.5" "Windows" "10"
      (some (19999/1000)) none none 90 90 20).free_disk_space_gb
      ≠ some (pyRound 2 (19999/1000)) := by
  have hround : pyRound 2 (19999/1000 : ℚ) = 20 := by
    unfold pyRound roundHalfEven; norm_num
  have hnone : (buildMachinePayload "2023-10-28T14:30:00" "PC1" "10.0.0.5"
      "Windows" "10" (some (19999/1000)) none none 90 90 20).free_disk_space_gb
      = none := by
    show payloadFreeDiskSpaceGb (some (19999/1000 : ℚ)) 20 = none
    rw [payloadFreeDiskSpaceGb_some, hround,
      if_neg (show ¬ ((20 : ℚ) < ((20 : ℤ) : ℚ)) by norm_num)]
  exact ⟨by norm_num, hround, hnone, by rw [hnone, hround]; simp⟩

/-- C2 amended: the agent rounds the free-disk reading to two decimal
places first and compares the rounded value against the threshold: the
outbound free_disk_space_gb is null when round(v, 2) is at or above the
threshold, equals round(v, 2) when round(v, 2) is strictly below it, and
an absent reading yields null. -/
theorem C2_disk_threshold_amended (ts nb ip osn osv : String)
    (cpuVal gpuVal : Option ℚ) (v : ℚ) (cpuT gpuT diskT : ℤ) :
    (((diskT : ℚ) ≤ pyRound 2 v →
      (buildMachinePayload ts nb ip osn osv (some v) cpuVal gpuVal
        cpuT gpuT diskT).free_disk_space_gb = none)
    ∧ (pyRound 2 v < (diskT : ℚ) →
      (buildMachinePayload ts nb ip osn osv (some v) cpuVal gpuVal
        cpuT gpuT diskT).free_disk_space_gb = some (pyRound 2 v))
    ∧ (buildMachinePayload ts nb ip osn osv none cpuVal gpuVal
        cpuT gpuT diskT).free_disk_space_gb = none) := by
  refine ⟨fun h => ?_, fun h => ?_, rfl⟩
  · have hnot : ¬ (pyRound 2 v < (diskT : ℚ)) := not_lt.mpr h
    simp [buildMachinePayload, payloadFreeDiskSpaceGb,
      currentFreeSpaceGbRounded, hnot]
  · simp [buildMachinePayload, payloadFreeDiskSpaceGb,
      currentFreeSpaceGbRounded, h]

/-- C2 witness: a reading of 19 GB rounds to itself, lies below the
threshold of 20 and is transmitted; an absent reading is null. -/
theorem C2_witness :
    (buildMachinePayload "2023-10-28T14:30:00" "PC1" "10.0.0.5" "Windows" "10"
      (some 19) none none 90 90 20).free_disk_space_gb = some 19
  ∧ (buildMachinePayload "2023-10-28T14:30:00" "PC1" "10.0.0.5" "Windows" "10"
      none none none 90 90 20).free_disk_space_gb = none := by
  have hround : pyRound 2 (19 : ℚ) = 19 := by
    unfold pyRound roundHalfEven; norm_num
  constructor
  · exact ((C2_disk_threshold_amended "2023-10-28T14:30:00" "PC1" "10.0.0.5"
        "Windows" "10" none none 19 90 90 20).2.1
        (by rw [hround]; norm_num)).trans (by rw [hround])
  · exact (C2_disk_threshold_amended "2023-10-28T14:30:00" "PC1" "10.0.0.5"
      "Windows" "10" none none 19 90 90 20).2.2

/-! ## Claim about the log cleanup -/

/-- C9: cleanup deletes exactly the files whose name matches the daily-log
pattern, whose six-character prefix parses as a date, and whose age in
days strictly exceeds the retention setting; everything else is left
untouched, and a negative retention setting deletes nothing at all. -/
theorem C9_cleanup_characterization (today : Date) (retention_days : ℤ)
    (files : List String) (f : String) :
    (f ∈ cleanup_old_logs today retention_days files ↔
      f ∈ files ∧ 0 ≤ retention_days ∧ matchesLogName f = true ∧
        ∃ d, parseYYMMDD (takeChars 6 f) = some d ∧
          toOrdinal today - toOrdinal d > retention_days)
  ∧ (retention_days < 0 → cleanup_old_logs today retention_days files = []) := by
  constructor
  · unfold cleanup_old_logs
    by_cases hr : retention_days < 0
    · rw [if_pos hr]
      simp only [List.not_mem_nil, false_iff]
      rintro ⟨-, hr0, -⟩
      exact absurd hr (not_lt.mpr hr0)
    · rw [if_neg hr, List.mem_filter]
      constructor
      · rintro ⟨hmem, hdel⟩
        unfold deletedByCleanup at hdel
        rw [Bool.and_eq_true] at hdel
        obtain ⟨hpat, hrest⟩ := hdel
        refine ⟨hmem, not_lt.mp hr, hpat, ?_⟩
        rcases hp : parseYYMMDD (takeChars 6 f) with _ | d
        · rw [hp] at hrest; simp at hrest
        · rw [hp] at hrest
          refine ⟨d, rfl, ?_⟩
          by_contra hage
          simp [hage] at hrest
      · rintro ⟨hmem, -, hpat, d, hp, hage⟩
        refine ⟨hmem, ?_⟩
        unfold deletedByCleanup
        rw [Bool.and_eq_true, hp]
        exact ⟨hpat, by simp [hage]⟩
  · intro hr
    unfold cleanup_old_logs
    rw [if_pos hr]

/-- C9 witness: on 2026-10-12 with retention 14, the file dated twenty days
earlier is deleted, the file dated five days earlier is retained, a file
not matching the pattern is ignored, and a negative retention deletes
nothing. -/
theorem C9_witness :
    "260922Log_Usage_Windows.log"
      ∈ cleanup_old_logs ⟨2026, 10, 12⟩ 14
        ["260922Log_Usage_Windows.log", "261007Log_Usage_Windows.log", "notalog.txt"]
  ∧ "261007Log_Usage_Windows.log"
      ∉ cleanup_old_logs ⟨2026, 10, 12⟩ 14
        ["260922Log_Usage_Windows.log", "261007Log_Usage_Windows.log", "notalog.txt"]
  ∧ "notalog.txt"
      ∉ cleanup_old_logs ⟨2026, 10, 12⟩ 14
        ["260922Log_Usage_Windows.log", "261007Log_Usage_Windows.log", "notalog.txt"]
  ∧ cleanup_old_logs ⟨2026, 10, 12⟩ (-1) ["260922Log_Usage_Windows.log"] = [] := by
  refine ⟨?_, ?_, ?_, ?_⟩
  · exact (C9_cleanup_characterization ⟨2026, 10, 12⟩ 14 _ _).1.mpr
      ⟨by decide, by decide, by decide, ⟨2026, 9, 22⟩, by decide, by decide⟩
  · intro hmem
    obtain ⟨-, -, -, d, hd, hage⟩ :=
      (C9_cleanup_characterization ⟨2026, 10, 12⟩ 14 _ _).1.mp hmem
    have : d = ⟨2026, 10, 7⟩ := by
      have := hd.symm.trans (show parseYYMMDD (takeChars 6 "261007Log_Usage_Windows.log") = some ⟨2026, 10, 7⟩ by decide)
      exact Option.some.inj this
    rw [this] at hage
    exact absurd hage (by decide)
  · intro hmem
    obtain ⟨-, -, hpat, -⟩ :=
      (C9_cleanup_characterization ⟨2026, 10, 12⟩ 14 _ _).1.mp hmem
    exact absurd hpat (by decide)
  · exact (C9_cleanup_characterization ⟨2026, 10, 12⟩ (-1)
      ["260922Log_Usage_Windows.log"] "").2 (by decide)

/-! ## Helper lemmas about the ingestion operations -/

theorem filter_name_length_map (f : Computer → Computer)
    (hf : ∀ c, (f c).netbios_name = c.netbios_name) (l : List Computer)
    (nm : String) :
    ((l.map f).filter (fun c => c.netbios_name == nm)).length
      = (l.filter (fun c => c.netbios_name == nm)).length := by
  induction l with
  | nil => rfl
  | cons c l ih =>
    simp only [List.map_cons, List.filter_cons, hf]
    by_cases h : (c.netbios_name == nm) = true
    · simp [h, ih]
    · simp [h, ih]

theorem countName_UPDATE_LAST_SEEN (db : DB) (ip : String) (ts : ℤ)
    (osn osv : Option String) (id : ℕ) (nm : String) :
    countName (UPDATE_COMPUTER_LAST_SEEN_IP db ip ts osn osv id) nm
      = countName db nm := by
  unfold countName UPDATE_COMPUTER_LAST_SEEN_IP
  exact filter_name_length_map _
    (fun c => by by_cases h : c.id = id <;> simp [h]) db.computers nm

theorem countName_UPDATE_PING (db : DB) (ip : String) (ts : ℤ) (id : ℕ)
    (nm : String) :
    countName (UPDATE_COMPUTER_PING_INFO db ip ts id) nm = countName db nm := by
  unfold countName UPDATE_COMPUTER_PING_INFO
  exact filter_name_length_map _
    (fun c => by by_cases h : c.id = id <;> simp [h]) db.computers nm

theorem countName_INSERT_NEW_self (db : DB) (nm ip : String) (ts : ℤ)
    (osn osv : Option String) :
    countName (INSERT_NEW_COMPUTER db nm ip ts osn osv).1 nm
      = countName db nm + 1 := by
  unfold countName INSERT_NEW_COMPUTER
  simp [List.filter_append]

theorem countName_INSERT_ACTIVITY (db : DB) (cid : ℕ) (ts : ℤ)
    (a b c : Option ℚ) (nm : String) :
    countName (INSERT_ACTIVITY_LOG db cid ts a b c) nm = countName db nm := rfl

theorem select_some_countName_pos (db : DB) (nm : String) (cid : ℕ)
    (h : SELECT_COMPUTER_BY_NETBIOS db nm = some cid) :
    1 ≤ countName db nm := by
  unfold SELECT_COMPUTER_BY_NETBIOS at h
  obtain ⟨c, hf, -⟩ := Option.map_eq_some'.mp h
  have hmem := List.mem_of_find?_eq_some hf
  have hp := List.find?_some hf
  unfold countName
  exact List.length_pos.mpr
    (List.ne_nil_of_mem (List.mem_filter.mpr ⟨hmem, hp⟩))

theorem select_none_countName_zero (db : DB) (nm : String)
    (h : SELECT_COMPUTER_BY_NETBIOS db nm = none) :
    countName db nm = 0 := by
  unfold SELECT_COMPUTER_BY_NETBIOS at h
  have hf := Option.map_eq_none'.mp h
  unfold countName
  rw [List.filter_eq_nil_iff.mpr (List.find?_eq_none.mp hf)]
  rfl

theorem mem_UPDATE_PING (db : DB) (ip : String) (ts : ℤ) (id : ℕ) :
    ∀ c ∈ (UPDATE_COMPUTER_PING_INFO db ip ts id).computers,
      c.id = id → c.ip_address = ip ∧ c.last_seen = some ts := by
  unfold UPDATE_COMPUTER_PING_INFO
  intro c hc hid
  obtain ⟨c0, hc0, heq⟩ := List.mem_map.mp hc
  by_cases h : c0.id = id
  · rw [if_pos h] at heq
    rw [← heq]
    exact ⟨rfl, rfl⟩
  · rw [if_neg h] at heq
    rw [← heq] at hid
    exact absurd hid h

theorem mem_UPDATE_LAST_SEEN (db : DB) (ip : String) (ts : ℤ)
    (osn osv : Option String) (id : ℕ) :
    ∀ c ∈ (UPDATE_COMPUTER_LAST_SEEN_IP db ip ts osn osv id).computers,
      c.id = id → c.ip_address = ip ∧ c.last_seen = some ts
        ∧ c.os_name = osn ∧ c.os_version = osv := by
  unfold UPDATE_COMPUTER_LAST_SEEN_IP
  intro c hc hid
  obtain ⟨c0, hc0, heq⟩ := List.mem_map.mp hc
  by_cases h : c0.id = id
  · rw [if_pos h] at heq
    rw [← heq]
    exact ⟨rfl, rfl, rfl, rfl⟩
  · rw [if_neg h] at heq
    rw [← heq] at hid
    exact absurd hid h

/-- Every rejected request leaves the store untouched: the single commit
sits on the success path and every error return rolls back first. -/
theorem log_activity_cases (p : Payload) (db : DB) :
    (log_activity p db).2 = Resp.ok ∨ (log_activity p db).1 = db := by
  unfold log_activity machineBranch applicationBranch pingBranch
  dsimp only
  repeat' split
  all_goals simp

/-- Inversion of an accepted machine record: all validations passed and the
store either updated the existing computer row and appended the activity
row, or inserted a fresh computer row and appended the activity row. -/
theorem log_activity_machine_ok (p : Payload) (db : DB)
    (hlt : p.log_type = some "machine")
    (hok : (log_activity p db).2 = Resp.ok) :
    ∃ s tf t ipRaw, p.netbios_name = some s ∧ ¬ pyStrip s = "" ∧
      p.timestamp = some tf ∧ ¬ tf.raw = "" ∧ tf.parsed = some t ∧
      p.ip_address = some ipRaw ∧ ¬ pyStrip ipRaw = "" ∧
      ((∃ cid, SELECT_COMPUTER_BY_NETBIOS db (pyStrip s) = some cid ∧ ¬ cid = 0 ∧
          (log_activity p db).1 = INSERT_ACTIVITY_LOG
            (UPDATE_COMPUTER_LAST_SEEN_IP db (pyStrip ipRaw) t p.os_name p.os_version cid)
            cid t p.free_disk_space_gb p.cpu_usage_percent p.gpu_usage_percent)
      ∨ (SELECT_COMPUTER_BY_NETBIOS db (pyStrip s) = none ∧ ¬ db.next_id = 0 ∧
          (log_activity p db).1 = INSERT_ACTIVITY_LOG
            (INSERT_NEW_COMPUTER db (pyStrip s) (pyStrip ipRaw) t p.os_name p.os_version).1
            db.next_id t p.free_disk_space_gb p.cpu_usage_percent p.gpu_usage_percent)) := by
  rcases htf : p.timestamp with _ | tf
  · simp [log_activity, hlt, htf] at hok
  by_cases hraw : tf.raw = ""
  · simp [log_activity, hlt, htf, hraw] at hok
  rcases hts : tf.parsed with _ | t
  · simp [log_activity, hlt, htf, hraw, hts] at hok
  rcases hnb : p.netbios_name with _ | s
  · simp [log_activity, hlt, htf, hraw, hts, hnb] at hok
  by_cases hs : pyStrip s = ""
  · simp [log_activity, hlt, htf, hraw, hts, hnb, hs] at hok
  rcases hip : p.ip_address with _ | ipRaw
  · simp [log_activity, machineBranch, hlt, htf, hraw, hts, hnb, hs, hip] at hok
  by_cases hips : pyStrip ipRaw = ""
  · simp [log_activity, machineBranch, hlt, htf, hraw, hts, hnb, hs, hip, hips] at hok
  rcases hsel : SELECT_COMPUTER_BY_NETBIOS db (pyStrip s) with _ | cid
  · by_cases hnid : db.next_id = 0
    · simp [log_activity, machineBranch, hlt, htf, hraw, hts, hnb, hs, hip, hips,
        hsel, INSERT_NEW_COMPUTER, hnid] at hok
    · refine ⟨s, tf, t, ipRaw, rfl, hs, rfl, hraw, hts, rfl, hips,
        Or.inr ⟨hsel, hnid, ?_⟩⟩
      simp [log_activity, machineBranch, hlt, htf, hraw, hts, hnb, hs, hip, hips,
        hsel, INSERT_NEW_COMPUTER, hnid]
  · by_cases hcid : cid = 0
    · simp [log_activity, machineBranch, hlt, htf, hraw, hts, hnb, hs, hip, hips,
        hsel, hcid] at hok
    · refine ⟨s, tf, t, ipRaw, rfl, hs, rfl, hraw, hts, rfl, hips,
        Or.inl ⟨cid, hsel, hcid, ?_⟩⟩
      simp [log_activity, machineBranch, hlt, htf, hraw, hts, hnb, hs, hip, hips,
        hsel, hcid]

/-- Inversion of an accepted ping record: all validations passed and the
store either updated the existing computer row, or inserted a fresh one
with null os fields. -/
theorem log_activity_ping_ok (p : Payload) (db : DB)
    (hlt : p.log_type = some "ping")
    (hok : (log_activity p db).2 = Resp.ok) :
    ∃ s tf t ipRaw, p.netbios_name = some s ∧ ¬ pyStrip s = "" ∧
      p.timestamp = some tf ∧ ¬ tf.raw = "" ∧ tf.parsed = some t ∧
      p.ip_address = some ipRaw ∧ ¬ pyStrip ipRaw = "" ∧
      ((∃ cid, SELECT_COMPUTER_BY_NETBIOS db (pyStrip s) = some cid ∧
          (log_activity p db).1 = UPDATE_COMPUTER_PING_INFO db (pyStrip ipRaw) t cid)
      ∨ (SELECT_COMPUTER_BY_NETBIOS db (pyStrip s) = none ∧ ¬ db.next_id = 0 ∧
          (log_activity p db).1
            = (INSERT_NEW_COMPUTER db (pyStrip s) (pyStrip ipRaw) t none none).1)) := by
  rcases htf : p.timestamp with _ | tf
  · simp [log_activity, hlt, htf] at hok
  by_cases hraw : tf.raw = ""
  · simp [log_activity, hlt, htf, hraw] at hok
  rcases hts : tf.parsed with _ | t
  · simp [log_activity, hlt, htf, hraw, hts] at hok
  rcases hnb : p.netbios_name with _ | s
  · simp [log_activity, hlt, htf, hraw, hts, hnb] at hok
  by_cases hs : pyStrip s = ""
  · simp [log_activity, hlt, htf, hraw, hts, hnb, hs] at hok
  rcases hip : p.ip_address with _ | ipRaw
  · simp [log_activity, pingBranch, hlt, htf, hraw, hts, hnb, hs, hip] at hok
  by_cases hips : pyStrip ipRaw = ""
  · simp [log_activity, pingBranch, hlt, htf, hraw, hts, hnb, hs, hip, hips] at hok
  rcases hsel : SELECT_COMPUTER_BY_NETBIOS db (pyStrip s) with _ | cid
  · by_cases hnid : db.next_id = 0
    · simp [log_activity, pingBranch, hlt, htf, hraw, hts, hnb, hs, hip, hips,
        hsel, INSERT_NEW_COMPUTER, hnid] at hok
    · refine ⟨s, tf, t, ipRaw, rfl, hs, rfl, hraw, hts, rfl, hips,
        Or.inr ⟨hsel, hnid, ?_⟩⟩
      simp [log_activity, pingBranch, hlt, htf, hraw, hts, hnb, hs, hip, hips,
        hsel, INSERT_NEW_COMPUTER, hnid]
  · refine ⟨s, tf, t, ipRaw, rfl, hs, rfl, hraw, hts, rfl, hips,
      Or.inl ⟨cid, hsel, ?_⟩⟩
    simp [log_activity, pingBranch, hlt, htf, hraw, hts, hnb, hs, hip, hips, hsel]

/-- One accepted machine record: if the name held at most one computers row
before, it holds exactly one after, and exactly one activity_logs row was
appended. -/
theorem machine_ok_step (p : Payload) (db : DB) (nm : String)
    (hlt : p.log_type = some "machine")
    (hn : ∃ s, p.netbios_name = some s ∧ pyStrip s = nm)
    (hok : (log_activity p db).2 = Resp.ok) :
    (countName db nm ≤ 1 → countName (log_activity p db).1 nm = 1)
    ∧ (log_activity p db).1.activity_logs.length = db.activity_logs.length + 1 := by
  obtain ⟨s2, tf, t, ipRaw, hnb, hs, htf, hraw, hts, hip, hips, hcase⟩ :=
    log_activity_machine_ok p db hlt hok
  obtain ⟨s0, hnb0, hstrip⟩ := hn
  have hseq : s0 = s2 := Option.some.inj (hnb0.symm.trans hnb)
  subst hseq
  rcases hcase with ⟨cid, hsel, hcid, heq⟩ | ⟨hsel, hnid, heq⟩
  · constructor
    · intro hle
      rw [heq, countName_INSERT_ACTIVITY, countName_UPDATE_LAST_SEEN]
      have h1 := select_some_countName_pos db (pyStrip s0) cid hsel
      rw [hstrip] at h1
      omega
    · rw [heq]
      simp [INSERT_ACTIVITY_LOG, UPDATE_COMPUTER_LAST_SEEN_IP]
  · constructor
    · intro hle
      rw [heq, countName_INSERT_ACTIVITY, ← hstrip, countName_INSERT_NEW_self]
      have h0 := select_none_countName_zero db (pyStrip s0) hsel
      omega
    · rw [heq]
      simp [INSERT_ACTIVITY_LOG, INSERT_NEW_COMPUTER]

/-- C3: two machine records carrying the same (stripped) netbios_name,
both accepted, leave exactly one computers row for that name and exactly
one activity_logs row per accepted record; and any rejected request of any
kind leaves the store exactly as it was, so the endpoint upsert and the
sample insert are visible together or not at all. -/
theorem C3_machine_idempotent_upsert_atomic (db : DB) (p1 p2 : Payload)
    (nm : String)
    (h1 : p1.log_type = some "machine") (h2 : p2.log_type = some "machine")
    (hn1 : ∃ s, p1.netbios_name = some s ∧ pyStrip s = nm)
    (hn2 : ∃ s, p2.netbios_name = some s ∧ pyStrip s = nm)
    (hcount : countName db nm ≤ 1)
    (hok1 : (log_activity p1 db).2 = Resp.ok)
    (hok2 : (log_activity p2 (log_activity p1 db).1).2 = Resp.ok) :
    countName (log_activity p1 db).1 nm = 1
  ∧ countName (log_activity p2 (log_activity p1 db).1).1 nm = 1
  ∧ (log_activity p1 db).1.activity_logs.length = db.activity_logs.length + 1
  ∧ (log_activity p2 (log_activity p1 db).1).1.activity_logs.length
      = db.activity_logs.length + 2
  ∧ (∀ (q : Payload) (d : DB),
      (log_activity q d).2 ≠ Resp.ok → (log_activity q d).1 = d) := by
  obtain ⟨hc1, hl1⟩ := machine_ok_step p1 db nm h1 hn1 hok1
  obtain ⟨hc2, hl2⟩ := machine_ok_step p2 _ nm h2 hn2 hok2
  have e1 := hc1 hcount
  refine ⟨e1, hc2 (by omega), hl1, by omega,
    fun q d hne => (log_activity_cases q d).resolve_left hne⟩

/-- C3 witness: two concrete machine records for PC1 (the second with
padded whitespace in the name) against the empty store yield one computers
row and two activity_logs rows. -/
theorem C3_witness :
    countName (log_activity machineReq2 (log_activity machineReq1 DB.empty).1).1
      "PC1" = 1
  ∧ (log_activity machineReq2
      (log_activity machineReq1 DB.empty).1).1.activity_logs.length = 2 := by
  have h := C3_machine_idempotent_upsert_atomic DB.empty machineReq1 machineReq2
    "PC1" rfl rfl ⟨"PC1", rfl, by decide⟩ ⟨" PC1 ", rfl, by decide⟩
    (by decide) (by decide) (by decide)
  exact ⟨h.2.1, h.2.2.2.1⟩

/-- C4: an application record whose (stripped) netbios_name matches no
computers row is answered not-found with the store untouched, neither a
computers row nor an application_usage_logs row appearing; when the row
exists, one application_usage_logs row is inserted for it and the
computers table is left alone. -/
theorem C4_application_requires_existing_endpoint (p : Payload) (db : DB)
    (tf : TimestampField) (t : ℤ) (s : String)
    (hlt : p.log_type = some "application")
    (htf : p.timestamp = some tf) (hraw : ¬ tf.raw = "")
    (ht : tf.parsed = some t)
    (hnb : p.netbios_name = some s) (hs : ¬ pyStrip s = "") :
    (SELECT_COMPUTER_BY_NETBIOS db (pyStrip s) = none →
      log_activity p db = (db, Resp.notFound) ∧ countName db (pyStrip s) = 0)
  ∧ (∀ cid, SELECT_COMPUTER_BY_NETBIOS db (pyStrip s) = some cid → ¬ cid = 0 →
      log_activity p db
        = (INSERT_APPLICATION_LOG db cid t (p.active_window_title.getD ""),
           Resp.ok)
      ∧ (log_activity p db).1.application_usage_logs
          = db.application_usage_logs
            ++ [⟨cid, t, p.active_window_title.getD ""⟩]
      ∧ (log_activity p db).1.computers = db.computers) := by
  constructor
  · intro hsel
    refine ⟨?_, select_none_countName_zero db (pyStrip s) hsel⟩
    simp [log_activity, applicationBranch, hlt, htf, hraw, ht, hnb, hs, hsel]
  · intro cid hsel hcid
    have heq : log_activity p db
        = (INSERT_APPLICATION_LOG db cid t (p.active_window_title.getD ""),
           Resp.ok) := by
      simp [log_activity, applicationBranch, hlt, htf, hraw, ht, hnb, hs,
        hsel, hcid]
    refine ⟨heq, ?_, ?_⟩
    · rw [heq]
      simp [INSERT_APPLICATION_LOG]
    · rw [heq]
      rfl

/-- C4 witness: an application record for the never-reported PC9 against
the empty store is answered not-found and persists nothing; after a
machine record established PC1, an application record for PC1 is accepted
and one application_usage_logs row appears. -/
theorem C4_witness :
    log_activity appReqUnknown DB.empty = (DB.empty, Resp.notFound)
  ∧ (log_activity appReq (log_activity machineReq1 DB.empty).1).2 = Resp.ok
  ∧ (log_activity appReq
      (log_activity machineReq1 DB.empty).1).1.application_usage_logs.length
      = 1 := by
  have h1 := (C4_application_requires_existing_endpoint appReqUnknown DB.empty
    tsW1 100 "PC9" rfl rfl (by decide) rfl rfl (by decide)).1 (by decide)
  have h2 := (C4_application_requires_existing_endpoint appReq
    (log_activity machineReq1 DB.empty).1 tsW2 50 "PC1"
    rfl rfl (by decide) rfl rfl (by decide)).2 1 (by decide) (by decide)
  exact ⟨h1.1, by rw [h2.1], by rw [h2.1]; decide⟩

/-- C6: a ping record with a missing or whitespace-only ip_address is
rejected with the store untouched; with a non-empty ip_address, a ping for
an unknown name creates the computers row with null os fields and the
record instant as last_seen, and a ping for a known name updates that
row's ip_address and last_seen, the request being accepted either way. -/
theorem C6_ping_upsert (p : Payload) (db : DB) (tf : TimestampField)
    (t : ℤ) (s : String)
    (hlt : p.log_type = some "ping")
    (htf : p.timestamp = some tf) (hraw : ¬ tf.raw = "")
    (ht : tf.parsed = some t)
    (hnb : p.netbios_name = some s) (hs : ¬ pyStrip s = "") :
    ((p.ip_address = none
        ∨ ∃ ipRaw, p.ip_address = some ipRaw ∧ pyStrip ipRaw = "") →
      log_activity p db = (db, Resp.badRequest))
  ∧ (∀ ipRaw, p.ip_address = some ipRaw → ¬ pyStrip ipRaw = "" →
      (SELECT_COMPUTER_BY_NETBIOS db (pyStrip s) = none → ¬ db.next_id = 0 →
        log_activity p db
          = ((INSERT_NEW_COMPUTER db (pyStrip s) (pyStrip ipRaw) t
              none none).1, Resp.ok)
        ∧ (log_activity p db).1.computers
            = db.computers
              ++ [⟨db.next_id, pyStrip s, pyStrip ipRaw, some t,
                   none, none, none⟩])
      ∧ (∀ cid, SELECT_COMPUTER_BY_NETBIOS db (pyStrip s) = some cid →
          log_activity p db
            = (UPDATE_COMPUTER_PING_INFO db (pyStrip ipRaw) t cid, Resp.ok)
          ∧ ∀ c ∈ (log_activity p db).1.computers, c.id = cid →
              c.ip_address = pyStrip ipRaw ∧ c.last_seen = some t)) := by
  constructor
  · rintro (hip | ⟨ipRaw, hip, hips⟩)
    · simp [log_activity, pingBranch, hlt, htf, hraw, ht, hnb, hs, hip]
    · simp [log_activity, pingBranch, hlt, htf, hraw, ht, hnb, hs, hip, hips]
  · intro ipRaw hip hips
    constructor
    · intro hsel hnid
      have heq : log_activity p db
          = ((INSERT_NEW_COMPUTER db (pyStrip s) (pyStrip ipRaw) t
              none none).1, Resp.ok) := by
        simp [log_activity, pingBranch, hlt, htf, hraw, ht, hnb, hs, hip,
          hips, hsel, INSERT_NEW_COMPUTER, hnid]
      refine ⟨heq, ?_⟩
      rw [heq]
      simp [INSERT_NEW_COMPUTER]
    · intro cid hsel
      have heq : log_activity p db
          = (UPDATE_COMPUTER_PING_INFO db (pyStrip ipRaw) t cid, Resp.ok) := by
        simp [log_activity, pingBranch, hlt, htf, hraw, ht, hnb, hs, hip,
          hips, hsel]
      refine ⟨heq, ?_⟩
      rw [heq]
      exact mem_UPDATE_PING db (pyStrip ipRaw) t cid

/-- C6 witness: a ping for the fresh PC3 is accepted and creates its row
with null os fields; a ping for the known PC1 is accepted and rewrites its
ip_address and last_seen; a ping without ip_address is rejected. -/
theorem C6_witness :
    (log_activity pingReqNew DB.empty).2 = Resp.ok
  ∧ (log_activity pingReqNew DB.empty).1.computers
      = [⟨1, "PC3", "10.0.0.7", some 100, none, none, none⟩]
  ∧ (log_activity pingReqKnown (log_activity machineReq1 DB.empty).1).2
      = Resp.ok
  ∧ log_activity
      ⟨some "ping", some tsW1, some "PC3", none, none, none, none, none,
       none, none⟩ DB.empty
      = (DB.empty, Resp.badRequest) := by
  have h1 := ((C6_ping_upsert pingReqNew DB.empty tsW1 100 "PC3"
    rfl rfl (by decide) rfl rfl (by decide)).2 "10.0.0.7" rfl (by decide)).1
    (by decide) (by decide)
  have h2 := ((C6_ping_upsert pingReqKnown (log_activity machineReq1 DB.empty).1
    tsW2 50 "PC1" rfl rfl (by decide) rfl rfl (by decide)).2 "10.0.0.8" rfl
    (by decide)).2 1 (by decide)
  have h3 := (C6_ping_upsert
    ⟨some "ping", some tsW1, some "PC3", none, none, none, none, none,
     none, none⟩ DB.empty tsW1 100 "PC3"
    rfl rfl (by decide) rfl rfl (by decide)).1 (Or.inl rfl)
  refine ⟨by rw [h1.1], ?_, by rw [h2.1], h3⟩
  rw [h1.1]
  decide

/-- C5: the route rejects with a validation error and an untouched store
every request that is missing or empty in log_type, missing its timestamp
or carrying an empty or unparseable timestamp string (never silently
defaulted), missing or stripping-to-empty in netbios_name, a machine or
ping record without a non-empty ip_address, or carrying an unknown
log_type. -/
theorem C5_validation_rejections (p : Payload) (db : DB)
    (h : p.log_type = none ∨ p.log_type = some ""
      ∨ p.timestamp = none
      ∨ (∃ tf, p.timestamp = some tf ∧ tf.raw = "")
      ∨ (∃ tf, p.timestamp = some tf ∧ tf.parsed = none)
      ∨ p.netbios_name = none
      ∨ (∃ s, p.netbios_name = some s ∧ pyStrip s = "")
      ∨ ((p.log_type = some "machine" ∨ p.log_type = some "ping")
          ∧ (p.ip_address = none
             ∨ ∃ ip, p.ip_address = some ip ∧ pyStrip ip = ""))
      ∨ (∃ lt, p.log_type = some lt ∧ ¬ lt = "" ∧ ¬ lt = "machine"
          ∧ ¬ lt = "application" ∧ ¬ lt = "ping")) :
    log_activity p db = (db, Resp.badRequest) := by
  rcases h with h | h | h | ⟨tf, htf, hraw⟩ | ⟨tf, htf, hts⟩ | h
    | ⟨s, hnb, hs⟩ | ⟨hlt8, hip8⟩ | ⟨lt, hlt, e1, e2, e3, e4⟩
  · simp [log_activity, h]
  · simp [log_activity, h]
  · rcases hlt : p.log_type with _ | lt
    · simp [log_activity, hlt]
    by_cases he : lt = ""
    · simp [log_activity, hlt, he]
    · simp [log_activity, hlt, he, h]
  · rcases hlt : p.log_type with _ | lt
    · simp [log_activity, hlt]
    by_cases he : lt = ""
    · simp [log_activity, hlt, he]
    · simp [log_activity, hlt, he, htf, hraw]
  · rcases hlt : p.log_type with _ | lt
    · simp [log_activity, hlt]
    by_cases he : lt = ""
    · simp [log_activity, hlt, he]
    by_cases hraw : tf.raw = ""
    · simp [log_activity, hlt, he, htf, hraw]
    · simp [log_activity, hlt, he, htf, hraw, hts]
  · rcases hlt : p.log_type with _ | lt
    · simp [log_activity, hlt]
    by_cases he : lt = ""
    · simp [log_activity, hlt, he]
    rcases htf : p.timestamp with _ | tf
    · simp [log_activity, hlt, he, htf]
    by_cases hraw : tf.raw = ""
    · simp [log_activity, hlt, he, htf, hraw]
    rcases hts : tf.parsed with _ | t
    · simp [log_activity, hlt, he, htf, hraw, hts]
    · simp [log_activity, hlt, he, htf, hraw, hts, h]
  · rcases hlt : p.log_type with _ | lt
    · simp [log_activity, hlt]
    by_cases he : lt = ""
    · simp [log_activity, hlt, he]
    rcases htf : p.timestamp with _ | tf
    · simp [log_activity, hlt, he, htf]
    by_cases hraw : tf.raw = ""
    · simp [log_activity, hlt, he, htf, hraw]
    rcases hts : tf.parsed with _ | t
    · simp [log_activity, hlt, he, htf, hraw, hts]
    · simp [log_activity, hlt, he, htf, hraw, hts, hnb, hs]
  · rcases htf : p.timestamp with _ | tf
    · rcases hlt8 with hm | hpg
      · simp [log_activity, hm, htf]
      · simp [log_activity, hpg, htf]
    by_cases hraw : tf.raw = ""
    · rcases hlt8 with hm | hpg
      · simp [log_activity, hm, htf, hraw]
      · simp [log_activity, hpg, htf, hraw]
    rcases hts : tf.parsed with _ | t
    · rcases hlt8 with hm | hpg
      · simp [log_activity, hm, htf, hraw, hts]
      · simp [log_activity, hpg, htf, hraw, hts]
    rcases hnb : p.netbios_name with _ | s
    · rcases hlt8 with hm | hpg
      · simp [log_activity, hm, htf, hraw, hts, hnb]
      · simp [log_activity, hpg, htf, hraw, hts, hnb]
    by_cases hs : pyStrip s = ""
    · rcases hlt8 with hm | hpg
      · simp [log_activity, hm, htf, hraw, hts, hnb, hs]
      · simp [log_activity, hpg, htf, hraw, hts, hnb, hs]
    · rcases hip8 with hip | ⟨ip, hip, hips⟩ <;> rcases hlt8 with hm | hpg
      · simp [log_activity, machineBranch, hm, htf, hraw, hts, hnb, hs, hip]
      · simp [log_activity, pingBranch, hpg, htf, hraw, hts, hnb, hs, hip]
      · simp [log_activity, machineBranch, hm, htf, hraw, hts, hnb, hs,
          hip, hips]
      · simp [log_activity, pingBranch, hpg, htf, hraw, hts, hnb, hs,
          hip, hips]
  · rcases htf : p.timestamp with _ | tf
    · simp [log_activity, hlt, e1, htf]
    by_cases hraw : tf.raw = ""
    · simp [log_activity, hlt, e1, htf, hraw]
    rcases hts : tf.parsed with _ | t
    · simp [log_activity, hlt, e1, htf, hraw, hts]
    rcases hnb : p.netbios_name with _ | s
    · simp [log_activity, hlt, e1, htf, hraw, hts, hnb]
    by_cases hs : pyStrip s = ""
    · simp [log_activity, hlt, e1, htf, hraw, hts, hnb, hs]
    · simp [log_activity, hlt, e1, e2, e3, e4, htf, hraw, hts, hnb, hs]

/-- C5 witness: a machine record whose timestamp string does not parse is
rejected with 400 and the empty store is unchanged; likewise a record with
an unknown log_type. -/
theorem C5_witness :
    log_activity badTsReq DB.empty = (DB.empty, Resp.badRequest)
  ∧ log_activity
      ⟨some "telemetry", some tsW1, some "PC1", some "10.0.0.5", none, none,
       none, none, none, none⟩ DB.empty
      = (DB.empty, Resp.badRequest) := by
  constructor
  · exact C5_validation_rejections badTsReq DB.empty
      (Or.inr (Or.inr (Or.inr (Or.inr (Or.inl ⟨tsBad, rfl, rfl⟩)))))
  · exact C5_validation_rejections _ DB.empty
      (Or.inr (Or.inr (Or.inr (Or.inr (Or.inr (Or.inr (Or.inr (Or.inr
        ⟨"telemetry", rfl, by decide, by decide, by decide, by decide⟩))))))))

/-- One row contributes exactly one Offline alert under its own name when
its last_seen is null or stale, none otherwise; the high-usage alerts it
may also emit carry a different alert_type. -/
theorem countOffline_rowAlerts_self (now : ℤ) (row : DashboardRow) :
    ((rowAlerts now row).filter
      (fun a => a.alert_type == "Offline" && a.netbios_name == row.netbios_name)).length
    = (match row.last_seen with
       | none => 1
       | some t => if now - t > OFFLINE_THRESHOLD_MINUTES * 60 then 1 else 0) := by
  unfold rowAlerts
  rcases hl : row.last_seen with _ | t <;>
    rcases hll : row.latest_log with _ | ⟨cpu, gpu, ts⟩
  · simp
  · rcases cpu with _ | c <;> rcases gpu with _ | g <;>
      (simp [List.filter_append]; try (split_ifs <;> simp))
  · simp [List.filter_append]
    try (split_ifs <;> simp)
  · rcases cpu with _ | c <;> rcases gpu with _ | g <;>
      (simp [List.filter_append]; try (split_ifs <;> simp))

/-- A row contributes no Offline alert under a name other than its own. -/
theorem countOffline_rowAlerts_other (now : ℤ) (row : DashboardRow)
    (nm : String) (hne : ¬ row.netbios_name = nm) :
    ((rowAlerts now row).filter
      (fun a => a.alert_type == "Offline" && a.netbios_name == nm)).length = 0 := by
  unfold rowAlerts
  rcases hl : row.last_seen with _ | t <;>
    rcases hll : row.latest_log with _ | ⟨cpu, gpu, ts⟩
  · simp [hne]
  · rcases cpu with _ | c <;> rcases gpu with _ | g <;>
      (simp [List.filter_append, hne]; try (split_ifs <;> simp [hne]))
  · simp [List.filter_append, hne]
    try (split_ifs <;> simp [hne])
  · rcases cpu with _ | c <;> rcases gpu with _ | g <;>
      (simp [List.filter_append, hne]; try (split_ifs <;> simp [hne]))

/-- Rows whose names all differ from nm contribute no Offline alert for
nm. -/
theorem countOffline_dashboard_zero (now : ℤ) (rows : List DashboardRow)
    (nm : String) (h : ∀ row ∈ rows, ¬ row.netbios_name = nm) :
    countOfflineAlertsFor (dashboardAlerts now rows) nm = 0 := by
  induction rows with
  | nil => rfl
  | cons q rows ih =>
    unfold countOfflineAlertsFor dashboardAlerts
    rw [List.flatMap_cons, List.filter_append, List.length_append]
    have h1 := countOffline_rowAlerts_other now q nm (h q (List.mem_cons_self q rows))
    have h2 := ih (fun row hr => h row (List.mem_cons_of_mem q hr))
    unfold countOfflineAlertsFor dashboardAlerts at h2
    omega

/-- C7: on one dashboard read at instant now, an endpoint among the rows
(whose names are pairwise distinct, as the computers table keys them
uniquely) receives exactly one Offline alert when its last_seen is null or
lies strictly more than thirty minutes in the past, and none otherwise. -/
theorem C7_offline_alerts (now : ℤ) (rows : List DashboardRow)
    (r : DashboardRow) (hmem : r ∈ rows)
    (hnodup : (rows.map (fun x => x.netbios_name)).Nodup) :
    countOfflineAlertsFor (dashboardAlerts now rows) r.netbios_name
      = (match r.last_seen with
         | none => 1
         | some t => if now - t > OFFLINE_THRESHOLD_MINUTES * 60 then 1 else 0) := by
  induction rows with
  | nil => cases hmem
  | cons q rows ih =>
    have hq : (∀ x ∈ rows, ¬ x.netbios_name = q.netbios_name)
        ∧ (List.map (fun x => x.netbios_name) rows).Nodup := by
      simpa using hnodup
    rcases List.mem_cons.mp hmem with heq | hmem2
    · subst heq
      unfold countOfflineAlertsFor dashboardAlerts
      rw [List.flatMap_cons, List.filter_append, List.length_append]
      have h1 := countOffline_rowAlerts_self now r
      have h2 := countOffline_dashboard_zero now rows r.netbios_name hq.1
      unfold countOfflineAlertsFor dashboardAlerts at h2
      omega
    · have hne : ¬ q.netbios_name = r.netbios_name :=
        fun hname => hq.1 r hmem2 hname.symm
      unfold countOfflineAlertsFor dashboardAlerts
      rw [List.flatMap_cons, List.filter_append, List.length_append]
      have h1 := countOffline_rowAlerts_other now q r.netbios_name hne
      have h2 := ih hmem2 hq.2
      unfold countOfflineAlertsFor dashboardAlerts at h2
      omega

/-- C7 witness: at instant 10000 the endpoint last seen 31 minutes earlier
receives exactly one Offline alert and the endpoint last seen 29 minutes
earlier receives none. -/
theorem C7_witness :
    countOfflineAlertsFor (dashboardAlerts 10000 [dashRow1, dashRow2]) "PC1" = 1
  ∧ countOfflineAlertsFor (dashboardAlerts 10000 [dashRow1, dashRow2]) "PC2"
      = 0 := by
  constructor
  · exact (C7_offline_alerts 10000 [dashRow1, dashRow2] dashRow1
      (by decide) (by decide)).trans (by decide)
  · exact (C7_offline_alerts 10000 [dashRow1, dashRow2] dashRow2
      (by decide) (by decide)).trans (by decide)

/-- C8 counterexample: a machine record for PC1 at instant 100 is accepted,
then a second machine record for the same endpoint carrying the earlier
instant 50 is also accepted, and the endpoint last_seen regresses from 100
to 50: last_seen is not monotonically non-decreasing across accepted
reports. -/
theorem C8_counterexample :
    (log_activity machineReq2 (log_activity machineReq1 DB.empty).1).2
      = Resp.ok
  ∧ tsW1.parsed = some 100 ∧ tsW2.parsed = some 50
  ∧ lastSeenOf (log_activity machineReq1 DB.empty).1 "PC1" = some (some 100)
  ∧ lastSeenOf (log_activity machineReq2
      (log_activity machineReq1 DB.empty).1).1 "PC1" = some (some 50) := by
  decide

/-- C8 amended: each accepted machine or ping record for an existing
endpoint overwrites the endpoint last_seen with the record timestamp, so a
report arriving with an earlier timestamp regresses last_seen rather than
leaving it in place. -/
theorem C8_last_seen_overwrite_amended (p : Payload) (db : DB)
    (tf : TimestampField) (t : ℤ) (s : String) (cid : ℕ)
    (hlt : p.log_type = some "machine" ∨ p.log_type = some "ping")
    (htf : p.timestamp = some tf) (ht : tf.parsed = some t)
    (hnb : p.netbios_name = some s)
    (hsel : SELECT_COMPUTER_BY_NETBIOS db (pyStrip s) = some cid)
    (hok : (log_activity p db).2 = Resp.ok) :
    ∀ c ∈ (log_activity p db).1.computers, c.id = cid → c.last_seen = some t := by
  rcases hlt with hm | hpg
  · obtain ⟨s2, tf2, t2, ipRaw, hnb2, hs2, htf2, hraw2, hts2, hip2, hips2, hcase⟩ :=
      log_activity_machine_ok p db hm hok
    have hseq : s = s2 := Option.some.inj (hnb.symm.trans hnb2)
    subst hseq
    have htfeq : tf = tf2 := Option.some.inj (htf.symm.trans htf2)
    subst htfeq
    have hteq : t = t2 := Option.some.inj (ht.symm.trans hts2)
    subst hteq
    rcases hcase with ⟨cid2, hsel2, hcid2, heq⟩ | ⟨hsel2, hnid2, heq⟩
    · have hceq : cid = cid2 := Option.some.inj (hsel.symm.trans hsel2)
      subst hceq
      rw [heq]
      intro c hc hid
      exact (mem_UPDATE_LAST_SEEN db (pyStrip ipRaw) t p.os_name p.os_version
        cid c hc hid).2.1
    · rw [hsel2] at hsel
      exact absurd hsel (by simp)
  · obtain ⟨s2, tf2, t2, ipRaw, hnb2, hs2, htf2, hraw2, hts2, hip2, hips2, hcase⟩ :=
      log_activity_ping_ok p db hpg hok
    have hseq : s = s2 := Option.some.inj (hnb.symm.trans hnb2)
    subst hseq
    have htfeq : tf = tf2 := Option.some.inj (htf.symm.trans htf2)
    subst htfeq
    have hteq : t = t2 := Option.some.inj (ht.symm.trans hts2)
    subst hteq
    rcases hcase with ⟨cid2, hsel2, heq⟩ | ⟨hsel2, hnid2, heq⟩
    · have hceq : cid = cid2 := Option.some.inj (hsel.symm.trans hsel2)
      subst hceq
      rw [heq]
      exact fun c hc hid => (mem_UPDATE_PING db (pyStrip ipRaw) t cid c hc hid).2
    · rw [hsel2] at hsel
      exact absurd hsel (by simp)

/-- C8 witness: after the accepted second machine record at the earlier
instant 50, the PC1 row of the store is exactly the one below, and the
amended claim applied to it confirms its last_seen is the regressed 50. -/
theorem C8_witness :
    ({ id := 1, netbios_name := "PC1", ip_address := "10.0.0.6",
       last_seen := some 50, os_name := some "Windows",
       os_version := some "11", group_id := none } : Computer).last_seen
      = some 50 :=
  C8_last_seen_overwrite_amended machineReq2
    (log_activity machineReq1 DB.empty).1 tsW2 50 " PC1 " 1
    (Or.inl rfl) rfl rfl rfl (by decide) (by decide)
    { id := 1, netbios_name := "PC1", ip_address := "10.0.0.6",
      last_seen := some 50, os_name := some "Windows",
      os_version := some "11", group_id := none }
    (by decide) (by decide)

/-- The machine branch reads only the ip_address, os and metric fields of
the payload. -/
theorem machineBranch_congr (p q : Payload) (db : DB) (t : ℤ) (name : String)
    (result : Option ℕ)
    (h1 : p.ip_address = q.ip_address) (h2 : p.os_name = q.os_name)
    (h3 : p.os_version = q.os_version)
    (h4 : p.free_disk_space_gb = q.free_disk_space_gb)
    (h5 : p.cpu_usage_percent = q.cpu_usage_percent)
    (h6 : p.gpu_usage_percent = q.gpu_usage_percent) :
    machineBranch p db t name result = machineBranch q db t name result := by
  unfold machineBranch
  rw [h1, h2, h3, h4, h5, h6]

/-- The application branch reads only the active_window_title field of the
payload. -/
theorem applicationBranch_congr (p q : Payload) (db : DB) (t : ℤ)
    (result : Option ℕ)
    (h1 : p.active_window_title = q.active_window_title) :
    applicationBranch p db t result = applicationBranch q db t result := by
  unfold applicationBranch
  rw [h1]

/-- The ping branch reads only the ip_address field of the payload. -/
theorem pingBranch_congr (p q : Payload) (db : DB) (t : ℤ) (name : String)
    (result : Option ℕ)
    (h1 : p.ip_address = q.ip_address) :
    pingBranch p db t name result = pingBranch q db t name result := by
  unfold pingBranch
  rw [h1]

/-- C10: the collector strips surrounding whitespace off netbios_name
before any lookup, insert or update, so the route treats two raw names
with the same stripped form identically (same endpoint, same outcome),
and a whitespace-only netbios_name is rejected as missing with the store
untouched. -/
theorem C10_netbios_whitespace (p : Payload) (db : DB) :
    (∀ s, p.netbios_name = some s → pyStrip s = "" →
      log_activity p db = (db, Resp.badRequest))
  ∧ (∀ s1 s2, pyStrip s1 = pyStrip s2 →
      log_activity { p with netbios_name := some s1 } db
        = log_activity { p with netbios_name := some s2 } db) := by
  constructor
  · intro s hnb hs
    rcases hlt : p.log_type with _ | lt
    · simp [log_activity, hlt]
    by_cases he : lt = ""
    · simp [log_activity, hlt, he]
    rcases htf : p.timestamp with _ | tf
    · simp [log_activity, hlt, he, htf]
    by_cases hraw : tf.raw = ""
    · simp [log_activity, hlt, he, htf, hraw]
    rcases hts : tf.parsed with _ | t
    · simp [log_activity, hlt, he, htf, hraw, hts]
    · simp [log_activity, hlt, he, htf, hraw, hts, hnb, hs]
  · intro s1 s2 hss
    rcases hlt : p.log_type with _ | lt
    · simp [log_activity, hlt]
    by_cases he : lt = ""
    · simp [log_activity, hlt, he]
    rcases htf : p.timestamp with _ | tf
    · simp [log_activity, hlt, he, htf]
    by_cases hraw : tf.raw = ""
    · simp [log_activity, hlt, he, htf, hraw]
    rcases hts : tf.parsed with _ | t
    · simp [log_activity, hlt, he, htf, hraw, hts]
    by_cases hs : pyStrip s2 = ""
    · have hs1 : pyStrip s1 = "" := by rw [hss]; exact hs
      simp [log_activity, hlt, he, htf, hraw, hts, hs, hs1]
    have hs1 : ¬ pyStrip s1 = "" := by rw [hss]; exact hs
    by_cases hm : lt = "machine"
    · simp only [log_activity, hlt, he, htf, hraw, hts, hm, hs, hs1, hss,
        if_false, if_neg, if_pos, if_true]
      simp [hs, hs1, hss]
      exact machineBranch_congr _ _ db t _ _ rfl rfl rfl rfl rfl rfl
    by_cases ha : lt = "application"
    · simp [log_activity, hlt, he, htf, hraw, hts, hm, ha, hs, hs1, hss]
      exact applicationBranch_congr _ _ db t _ rfl
    by_cases hpg : lt = "ping"
    · simp [log_activity, hlt, he, htf, hraw, hts, hm, ha, hpg, hs, hs1, hss]
      exact pingBranch_congr _ _ db t _ _ rfl
    · simp [log_activity, hlt, he, htf, hraw, hts, hm, ha, hpg, hs, hs1, hss]

/-- C10 witness: the machine record with the padded name " PC1 " lands on
the same endpoint as the bare name PC1, and a whitespace-only name is
rejected. -/
theorem C10_witness :
    log_activity machineReq2 (log_activity machineReq1 DB.empty).1
      = log_activity
          ⟨some "machine", some tsW2, some "PC1", some "10.0.0.6",
           some "Windows", some "11", none, none, none, none⟩
          (log_activity machineReq1 DB.empty).1
  ∧ log_activity
      ⟨some "machine", some tsW1, some "   ", some "10.0.0.5", none, none,
       none, none, none, none⟩ DB.empty
      = (DB.empty, Resp.badRequest) := by
  constructor
  · exact (C10_netbios_whitespace
      ⟨some "machine", some tsW2, none, some "10.0.0.6", some "Windows",
       some "11", none, none, none, none⟩
      (log_activity machineReq1 DB.empty).1).2 " PC1 " "PC1" (by decide)
  · exact (C10_netbios_whitespace
      ⟨some "machine", some tsW1, some "   ", some "10.0.0.5", none, none,
       none, none, none, none⟩ DB.empty).1 "   " rfl (by decide)

end UsageAgentWindows
